import Mathlib

/-!
# web-guess: a number guessing game served over HTTP

A shallow embedding of `main.go`.  The two request handlers `homeHandler` and
`guessHandler` are translated line by line; the parts of the Go standard
library they call (`strconv.Atoi`, `strconv.Itoa`, `fmt.Sprintf`, and the
pieces of `net/http` that touch the response) are modelled by small executable
definitions.  The value returned by `rand.Intn(100)` is an explicit argument
of `homeHandler`.
-/

set_option linter.unusedVariables false

namespace WebGuess

/-! ## strconv -/

/-- Width in bits of Go's `int` (`strconv.IntSize`) on a 64-bit platform. -/
def intSize : Nat := 64

/-- The digit loop shared by `strconv.Atoi` and `strconv.ParseUint` in base 10:
every byte must lie in `'0'..'9'`, and the value is accumulated as
`n = n*10 + digit`.  `none` is the syntax error. -/
def parseDigits : List Char → Nat → Option Nat
  | [], n => some n
  | c :: cs, n =>
    if 48 ≤ c.toNat ∧ c.toNat ≤ 57 then parseDigits cs (n * 10 + (c.toNat - 48))
    else none

/-- Model of `strconv.Atoi`: an optional sign `+` or `-`, then one or more
decimal digits; the value must fit in `int`.  `none` stands for a returned
error (syntax or range).  The magnitude is accumulated without a bound, so the
unsigned overflow that `ParseUint` reports as a range error is caught by the
signed cutoff test of `ParseInt`, which rejects the same inputs. -/
def Atoi (s : String) : Option Int :=
  match s.data with
  | [] => none
  | c :: cs =>
    let neg : Bool := c = '-'
    let ds := if c = '-' ∨ c = '+' then cs else c :: cs
    match ds with
    | [] => none
    | _ :: _ =>
      match parseDigits ds 0 with
      | none => none
      | some un =>
        let cutoff : Nat := 2 ^ (intSize - 1)
        if neg = false ∧ cutoff ≤ un then none
        else if neg = true ∧ cutoff < un then none
        else some (if neg then -(un : Int) else (un : Int))

/-- The character of a decimal digit `d < 10`. -/
def digitChar (d : Nat) : Char := Char.ofNat (48 + d)

/-- The digit loop of `strconv.formatBits` in base 10: digits are produced from
the least significant one and written in front of what is already there.  The
first argument bounds the number of iterations; `u + 1` always suffices. -/
def formatBits : Nat → Nat → List Char → List Char
  | 0, _, acc => acc
  | fuel + 1, u, acc =>
    if u < 10 then digitChar u :: acc
    else formatBits fuel (u / 10) (digitChar (u % 10) :: acc)

/-- Model of `strconv.Itoa`: the decimal digits of the magnitude, with a
leading `-` for a negative number. -/
def Itoa (i : Int) : String :=
  let u := i.natAbs
  let ds := formatBits (u + 1) u []
  String.mk (if i < 0 then '-' :: ds else ds)

/-! ## fmt -/

/-- Characters after `%` that start a directive outside the modelled part of
`fmt`: flags, width, precision, argument index, and the verbs `q`, `x`, `X`
that re-encode a string. -/
def unmodelledDirective (c : Char) : Bool :=
  "#0+- 123456789.*[qxX".data.contains c

/-- What `doPrintf` appends when operands are left over: `%!(EXTRA string=a, string=b)`. -/
def extraArgs : List String → List Char
  | [] => []
  | a :: as =>
    "%!(EXTRA ".data ++ ", ".data.intercalate ((a :: as).map fun x => "string=".data ++ x.data)
      ++ ")".data

/-- Model of `fmt`'s `doPrintf` for string operands.  The flag tells whether the
character before was a `%` that opens a directive.  Text is copied up to each
`%`; `%%` writes a percent sign; `%s` and `%v` write the next operand
unchanged; a verb with no operand left writes `%!verb(MISSING)`; any other verb
writes `%!verb(string=operand)`; a `%` that ends the format writes
`%!(NOVERB)`; operands left at the end are reported by `extraArgs`.  `none`
means the format uses a directive outside this fragment. -/
def doPrintf : List Char → Bool → List String → Option (List Char)
  | [], false, args => some (extraArgs args)
  | [], true, args => some ("%!(NOVERB)".data ++ extraArgs args)
  | c :: rest, false, args =>
    if c = '%' then doPrintf rest true args
    else (doPrintf rest false args).map (c :: ·)
  | v :: rest, true, args =>
    if v = '%' then (doPrintf rest false args).map ('%' :: ·)
    else if unmodelledDirective v then none
    else
      match args with
      | [] => (doPrintf rest false []).map ("%!".data ++ v :: "(MISSING)".data ++ ·)
      | a :: as =>
        if v = 's' ∨ v = 'v' then (doPrintf rest false as).map (a.data ++ ·)
        else (doPrintf rest false as).map
          ("%!".data ++ v :: "(string=".data ++ a.data ++ ")".data ++ ·)

/-- Model of `fmt.Sprintf` applied to string operands. -/
@[irreducible]
def Sprintf (format : String) (a : List String) : Option String :=
  (doPrintf format.data false a).map String.mk

/-! ## net/http -/

/-- The fields of `http.Cookie` that the program sets; the others keep their
zero value. -/
structure Cookie where
  Name : String
  Value : String
  Path : String := ""
  MaxAge : Int := 0
  HttpOnly : Bool := false
deriving DecidableEq

/-- What a handler can observe of an `*http.Request`: the method, whether
`ParseForm` returns an error, the parsed form `r.Form`, and the cookies sent in
the `Cookie` header in the order they were sent. -/
structure Request where
  Method : String
  parseFormFails : Bool
  Form : List (String × List String)
  Cookies : List Cookie
deriving DecidableEq

/-- Model of `(*Request).FormValue` once the form has been parsed: the first
value of the key, or the empty string when the key is absent. -/
def Request.FormValue (r : Request) (key : String) : String :=
  match r.Form.lookup key with
  | some (v :: _) => v
  | _ => ""

/-- Model of `(*Request).Cookie`: the first cookie of that name, or `none` for
`http.ErrNoCookie`. -/
def Request.Cookie (r : Request) (name : String) : Option WebGuess.Cookie :=
  if name = "" then none else r.Cookies.find? fun c => c.Name = name

/-- The response as built through an `http.ResponseWriter`: the header map, the
`Set-Cookie` lines kept as structured cookies, whether the status line has been
written, the status code and the body written so far. -/
structure ResponseWriter where
  header : List (String × String) := []
  setCookies : List Cookie := []
  wroteHeader : Bool := false
  status : Nat := 200
  body : String := ""
deriving DecidableEq

/-- The constant `http.MethodPost`. -/
def MethodPost : String := "POST"

/-- The constant `http.StatusFound`. -/
def StatusFound : Nat := 302

/-- The constant `http.StatusBadRequest`. -/
def StatusBadRequest : Nat := 400

/-- The constant `http.StatusMethodNotAllowed`. -/
def StatusMethodNotAllowed : Nat := 405

/-- Model of `w.Header().Set(key, value)`: replaces the values of the key.  Changes
made after the status line has been written do not reach the response. -/
def ResponseWriter.Set (w : ResponseWriter) (key value : String) : ResponseWriter :=
  if w.wroteHeader then w
  else { w with header := (w.header.filter fun kv => kv.1 ≠ key) ++ [(key, value)] }

/-- Model of `w.WriteHeader(code)`: only the first call counts. -/
def ResponseWriter.WriteHeader (w : ResponseWriter) (code : Nat) : ResponseWriter :=
  if w.wroteHeader then w else { w with wroteHeader := true, status := code }

/-- Model of `fmt.Fprint(w, s)`: the first write sends status 200 when no status
has been written, then the text is appended to the body. -/
def Fprint (w : ResponseWriter) (s : String) : ResponseWriter :=
  let w1 := w.WriteHeader 200
  { w1 with body := w1.body ++ s }

/-- The token characters of `net/http` (RFC 7230 `tchar`): visible ASCII other
than the delimiters `"(),/:;<=>?@[\]` and the two braces. -/
def isTokenChar (c : Char) : Bool :=
  decide (33 ≤ c.toNat) && decide (c.toNat ≤ 126) &&
    !([34, 40, 41, 44, 47, 58, 59, 60, 61, 62, 63, 64, 91, 92, 93, 123, 125].contains c.toNat)

/-- Model of `isCookieNameValid`: a non-empty string of token characters. -/
def isCookieNameValid (name : String) : Bool :=
  name ≠ "" && name.data.all isTokenChar

/-- Model of `http.SetCookie`: adds a `Set-Cookie` line, unless the cookie name
is invalid, in which case the cookie is dropped.  The value is kept as given:
the program only stores decimal digits there, which serialisation leaves
unchanged. -/
def SetCookie (w : ResponseWriter) (cookie : Cookie) : ResponseWriter :=
  if isCookieNameValid cookie.Name && !w.wroteHeader then
    { w with setCookies := w.setCookies ++ [cookie] }
  else w

/-- Model of `http.Error`: plain-text content type, `nosniff`, the status code,
and the message followed by a newline.  The headers that recent versions of
`http.Error` delete first are never set by this program. -/
def Error (w : ResponseWriter) (error : String) (code : Nat) : ResponseWriter :=
  let w1 := w.Set "Content-Type" "text/plain; charset=utf-8"
  let w2 := w1.Set "X-Content-Type-Options" "nosniff"
  let w3 := w2.WriteHeader code
  Fprint w3 (error ++ "\n")

/-- Model of `html.EscapeString` as used by `http.Redirect`. -/
def htmlEscape (s : String) : String :=
  String.mk (s.data.flatMap fun c =>
    if c = '&' then "&amp;".data
    else if c = '<' then "&lt;".data
    else if c = '>' then "&gt;".data
    else if c = Char.ofNat 34 then "&#34;".data
    else if c = Char.ofNat 39 then "&#39;".data
    else [c])

/-- Model of `http.StatusText` for the codes the program uses. -/
def StatusText (code : Nat) : String :=
  if code = 200 then "OK"
  else if code = 302 then "Found"
  else if code = 400 then "Bad Request"
  else if code = 405 then "Method Not Allowed"
  else ""

/-- Model of `http.Redirect` for a target that is already an absolute, clean
path (the program only redirects to `/`, which path cleaning and escaping leave
unchanged): sets `Location`, writes the status, and for a GET request without
a content type also writes a short HTML body. -/
def Redirect (w : ResponseWriter) (r : Request) (url : String) (code : Nat) : ResponseWriter :=
  let hadCT := (w.header.lookup "Content-Type").isSome
  let w1 := w.Set "Location" url
  let w2 :=
    if !hadCT && (r.Method = "GET" || r.Method = "HEAD") then
      w1.Set "Content-Type" "text/html; charset=utf-8"
    else w1
  let w3 := w2.WriteHeader code
  if !hadCT && r.Method = "GET" then
    Fprint w3 ("<a href=\"" ++ htmlEscape url ++ "\">" ++ StatusText code ++ "</a>.\n" ++ "\n")
  else w3

/-! ## main.go -/

/-- The page shell `htmlTemplate`: a complete HTML document with one `%s` verb
where the fragment goes. -/
def htmlTemplate : String :=
  "<!DOCTYPE html>
<html lang=\"zh-CN\">
<head>
    <meta charset=\"UTF-8\">
    <meta name=\"viewport\" content=\"width=device-width, initial-scale=1.0\">
    <title>猜数字游戏</title>
    <style>
        body \x7b
            font-family: \x27Courier New\x27, monospace;
            max-width: 600px;
            margin: 0 auto;
            padding: 20px;
            text-align: center;
            background-color: #0a0a1e;
            background-image: linear-gradient(to bottom, #0a0a1e, #1a1a3e);
            color: #00ffff;
            min-height: 100vh;
        \x7d
        h1 \x7b
            font-size: 48px;
            font-weight: bold;
            color: #ff00ff;
            text-shadow: 0 0 10px #ff00ff, 0 0 20px #ff00ff, 0 0 30px #ff00ff;
            margin-bottom: 30px;
        \x7d
        .game-container \x7b
            background-color: rgba(10, 10, 30, 0.8);
            padding: 40px;
            border-radius: 10px;
            box-shadow: 0 0 20px rgba(0, 255, 255, 0.3);
            border: 1px solid rgba(0, 255, 255, 0.5);
            backdrop-filter: blur(5px);
        \x7d
        p \x7b
            font-size: 18px;
            color: #00ffff;
            margin-bottom: 20px;
        \x7d
        input[type=\"number\"] \x7b
            padding: 15px;
            font-size: 20px;
            width: 250px;
            margin: 20px 0;
            background-color: rgba(10, 10, 30, 0.8);
            color: #00ffff;
            border: 2px solid #00ffff;
            border-radius: 5px;
            box-shadow: 0 0 10px rgba(0, 255, 255, 0.5);
            font-family: \x27Courier New\x27, monospace;
        \x7d
        input[type=\"number\"]:focus \x7b
            outline: none;
            box-shadow: 0 0 20px rgba(0, 255, 255, 0.8);
            border-color: #ff00ff;
        \x7d
        button \x7b
            padding: 15px 30px;
            font-size: 20px;
            background-color: rgba(255, 0, 255, 0.2);
            color: #ff00ff;
            border: 2px solid #ff00ff;
            border-radius: 5px;
            cursor: pointer;
            font-family: \x27Courier New\x27, monospace;
            font-weight: bold;
            box-shadow: 0 0 10px rgba(255, 0, 255, 0.5);
            transition: all 0.3s ease;
        \x7d
        button:hover \x7b
            background-color: rgba(255, 0, 255, 0.4);
            box-shadow: 0 0 20px rgba(255, 0, 255, 0.8);
            transform: translateY(-2px);
        \x7d
        .message \x7b
            margin: 30px 0;
            padding: 25px;
            border-radius: 8px;
            font-weight: bold;
            border: 2px solid;
            box-shadow: 0 0 15px;
        \x7d
        .message.success \x7b
            background-color: rgba(0, 255, 0, 0.2);
            color: #00ff00;
            border-color: #00ff00;
            box-shadow: 0 0 20px rgba(0, 255, 0, 0.7);
            font-size: 32px;
            text-shadow: 0 0 10px #00ff00;
        \x7d
        .message.error \x7b
            background-color: rgba(255, 255, 0, 0.2);
            color: #ffff00;
            border-color: #ffff00;
            box-shadow: 0 0 20px rgba(255, 255, 0, 0.7);
            font-size: 24px;
            text-shadow: 0 0 10px #ffff00;
        \x7d
        .message.info \x7b
            background-color: rgba(0, 255, 255, 0.2);
            color: #00ffff;
            border-color: #00ffff;
            box-shadow: 0 0 15px rgba(0, 255, 255, 0.5);
        \x7d
    </style>
</head>
<body>
    <div class=\"game-container\">
        <h1>猜数字游戏</h1>
        %s
    </div>
</body>
</html>"

/-- The home fragment `homePage`: the guess form. -/
def homePage : String :=
  "
        <p>我已经想好了一个 1-100 之间的数字，快来猜猜看吧！</p>
        <form method=\"POST\" action=\"/guess\">
            <input type=\"number\" name=\"number\" min=\"1\" max=\"100\" placeholder=\"请输入猜测的数字\" required>
            <br>
            <button type=\"submit\">提交猜测</button>
        </form>
"

/-- The result fragment `resultPage`: a message box with two `%s` verbs, the
class and then the message, followed by the play-again form. -/
def resultPage : String :=
  "
        <div class=\"message %s\">%s</div>
        <form method=\"GET\" action=\"/\">
            <button type=\"submit\">再玩一次</button>
        </form>
"

/-- The handler of `/`.  `draw` is the value returned by `rand.Intn(100)`.  The
result is `none` only if `Sprintf` is given a format outside the modelled part
of `fmt`, which does not happen for `htmlTemplate`. -/
def homeHandler (draw : Nat) (r : Request) : Option ResponseWriter :=
  let w : ResponseWriter := {}
  let target : Int := (draw : Int) + 1
  let cookie : Cookie :=
    { Name := "target", Value := Itoa target, Path := "/", MaxAge := 3600, HttpOnly := true }
  let w1 := SetCookie w cookie
  match Sprintf htmlTemplate [homePage] with
  | none => none
  | some html =>
    let w2 := w1.Set "Content-Type" "text/html; charset=utf-8"
    some (Fprint w2 html)

/-- The handler of `/guess`: the five guards in source order, then the
comparison and the two `Sprintf` calls.  The result is `none` only if `Sprintf`
is given a format outside the modelled part of `fmt`, which does not happen for
`resultPage` and `htmlTemplate`. -/
def guessHandler (r : Request) : Option ResponseWriter :=
  let w : ResponseWriter := {}
  if r.Method ≠ MethodPost then
    some (Error w "方法不允许" StatusMethodNotAllowed)
  else if r.parseFormFails then
    some (Error w "无法解析表单数据" StatusBadRequest)
  else
    let guessStr := r.FormValue "number"
    match Atoi guessStr with
    | none => some (Error w "请输入有效的数字" StatusBadRequest)
    | some guess =>
      match r.Cookie "target" with
      | none => some (Redirect w r "/" StatusFound)
      | some cookie =>
        match Atoi cookie.Value with
        | none => some (Redirect w r "/" StatusFound)
        | some target =>
          let mc : String × String :=
            if guess > target then ("太大了！", "error")
            else if guess < target then ("太小了！", "error")
            else ("恭喜猜对！", "success")
          let message := mc.1
          let messageClass := mc.2
          match Sprintf resultPage [messageClass, message] with
          | none => none
          | some resultContent =>
            match Sprintf htmlTemplate [resultContent] with
            | none => none
            | some html =>
              let w1 := w.Set "Content-Type" "text/html; charset=utf-8"
              some (Fprint w1 html)

/-- The text of the page shell before its `%s` verb. -/
@[irreducible]
def shellHead : String := String.mk (htmlTemplate.data.takeWhile fun c => c ≠ '%')

/-- The text of the page shell after its `%s` verb. -/
@[irreducible]
def shellTail : String := String.mk ((htmlTemplate.data.dropWhile fun c => c ≠ '%').drop 2)

/-- The text of the result fragment before the class. -/
def resultHead : String := "
        <div class=\"message "

/-- The text of the result fragment between the class and the message. -/
def resultMid : String := "\">"

/-- The text of the result fragment after the message. -/
def resultTail : String := "</div>
        <form method=\"GET\" action=\"/\">
            <button type=\"submit\">再玩一次</button>
        </form>
"

/-! ## The parts of the templates and the rendered pages -/

/-- The rendered result page for a class and a message, as `guessHandler`
builds it: the result fragment is formatted first and then placed in the page
shell. -/
def renderResult (messageClass message : String) : Option String :=
  match Sprintf resultPage [messageClass, message] with
  | none => none
  | some resultContent => Sprintf htmlTemplate [resultContent]

/-- The rendered result page written out as a concatenation. -/
def resultHtml (messageClass message : String) : String :=
  shellHead ++ (resultHead ++ messageClass ++ resultMid ++ message ++ resultTail) ++ shellTail

/-- The response of a handler that sets the HTML content type on a fresh writer
and prints one page. -/
def htmlResponse (html : String) : ResponseWriter :=
  Fprint (({} : ResponseWriter).Set "Content-Type" "text/html; charset=utf-8") html

/-! ## Requests used as examples -/

/-- A form POST to `/guess` with one `number` field and the given cookies. -/
def postGuess (number : String) (cookies : List Cookie) : Request :=
  { Method := "POST", parseFormFails := false, Form := [("number", [number])],
    Cookies := cookies }

/-- A plain GET request without form fields or cookies. -/
def getRequest : Request :=
  { Method := "GET", parseFormFails := false, Form := [], Cookies := [] }

/-- A cookie as a client sends it back: the name and the value only. -/
def sentCookie (name value : String) : Cookie := { Name := name, Value := value }

/-- The cookies a client holds after a response: each `Set-Cookie` line replaces
the cookie of the same name. -/
def clientStep (jar : List Cookie) (w : ResponseWriter) : List Cookie :=
  w.setCookies.foldl
    (fun j c => (j.filter fun x => x.Name ≠ c.Name) ++ [sentCookie c.Name c.Value]) jar

/-! ## The checks of `guessHandler`, one by one -/

/-- Check 1: the method is POST. -/
def methodOk (r : Request) : Bool := r.Method = "POST"

/-- Check 2: the form parses. -/
def formOk (r : Request) : Bool := !r.parseFormFails

/-- Check 3: the field `number` parses as an integer. -/
def numberOk (r : Request) : Bool := (Atoi (r.FormValue "number")).isSome

/-- Check 4: the cookie `target` is present. -/
def cookiePresent (r : Request) : Bool := (r.Cookie "target").isSome

/-- Check 5: the value of the cookie `target` parses as an integer. -/
def cookieOk (r : Request) : Bool :=
  match r.Cookie "target" with
  | some ck => (Atoi ck.Value).isSome
  | none => false

/-- The handler answers the request with the given status code. -/
def answers (r : Request) (code : Nat) : Prop :=
  ∃ w, guessHandler r = some w ∧ w.status = code

/-- The handler answers the request with a 302 redirect to `/`. -/
def redirectsHome (r : Request) : Prop :=
  ∃ w, guessHandler r = some w ∧ w.status = 302 ∧ w.header.lookup "Location" = some "/"

/-! ## Facts about the strconv model -/

theorem digitChar_toNat (d : Nat) (h : d < 10) : (digitChar d).toNat = 48 + d := by
  interval_cases d <;> rfl

theorem parseDigits_digitChar (d : Nat) (h : d < 10) (cs : List Char) (n : Nat) :
    parseDigits (digitChar d :: cs) n = parseDigits cs (n * 10 + d) := by
  have ht := digitChar_toNat d h
  simp only [parseDigits, ht]
  have h1 : 48 ≤ 48 + d ∧ 48 + d ≤ 57 := by omega
  rw [if_pos h1]
  congr 1
  omega

theorem parseDigits_formatBits (fuel : Nat) :
    ∀ (u : Nat) (acc : List Char), u < fuel →
      parseDigits (formatBits fuel u acc) 0 = parseDigits acc u := by
  induction fuel with
  | zero => intro u acc h; omega
  | succ f ih =>
    intro u acc h
    unfold formatBits
    by_cases hu : u < 10
    · rw [if_pos hu, parseDigits_digitChar u hu]
      simp
    · rw [if_neg hu]
      have hq : u / 10 < f := by omega
      rw [ih (u / 10) _ hq, parseDigits_digitChar (u % 10) (Nat.mod_lt _ (by decide))]
      congr 1
      omega

theorem formatBits_head (fuel : Nat) :
    ∀ (u : Nat) (acc : List Char), u < fuel →
      ∃ c cs, formatBits fuel u acc = c :: cs ∧ 48 ≤ c.toNat ∧ c.toNat ≤ 57 := by
  induction fuel with
  | zero => intro u acc h; omega
  | succ f ih =>
    intro u acc h
    unfold formatBits
    by_cases hu : u < 10
    · rw [if_pos hu]
      refine ⟨digitChar u, acc, rfl, ?_, ?_⟩ <;> rw [digitChar_toNat u hu] <;> omega
    · rw [if_neg hu]
      exact ih (u / 10) _ (by omega)

/-- Reading back what `Itoa` wrote gives the number again, for every number in
the range of `int`. -/
theorem Atoi_Itoa (g : Int) (hlo : -(2 : Int) ^ 63 ≤ g) (hhi : g < (2 : Int) ^ 63) :
    Atoi (Itoa g) = some g := by
  obtain ⟨c, cs, hds, hc1, hc2⟩ := formatBits_head (g.natAbs + 1) g.natAbs [] (by omega)
  have hp := parseDigits_formatBits (g.natAbs + 1) g.natAbs [] (by omega)
  have hcm : c ≠ '-' := by
    intro h; rw [h] at hc1; revert hc1; decide
  have hcp : c ≠ '+' := by
    intro h; rw [h] at hc1; revert hc1; decide
  by_cases hneg : g < 0
  · have hdata : (Itoa g).data = '-' :: c :: cs := by
      simp only [Itoa, hneg, if_true, hds]
    have hp2 : parseDigits (c :: cs) 0 = some g.natAbs := by
      rw [← hds, hp]; rfl
    unfold Atoi
    rw [hdata]
    simp only [hp2, intSize, true_or, if_true, decide_True]
    have h3 : ¬ ((2 : Nat) ^ (64 - 1) < g.natAbs) := by omega
    simp [h3, abs_of_neg hneg]
    omega
  · have hdata : (Itoa g).data = c :: cs := by
      simp only [Itoa, hneg, if_false, hds]
    have hp2 : parseDigits (c :: cs) 0 = some g.natAbs := by
      rw [← hds, hp]; rfl
    unfold Atoi
    rw [hdata]
    simp only [hp2, intSize, hcm, hcp, or_self, if_false, decide_False]
    have h3 : ¬ ((2 : Nat) ^ (64 - 1) ≤ g.natAbs) := by omega
    simp [h3, abs_of_nonneg (not_lt.mp hneg)]
    omega

/-! ## Facts about the fmt model -/

theorem doPrintf_text (pre : List Char) (hpre : ∀ c ∈ pre, c ≠ '%') (rest : List Char)
    (args : List String) :
    doPrintf (pre ++ rest) false args = (doPrintf rest false args).map (pre ++ ·) := by
  induction pre with
  | nil => simp
  | cons c cs ih =>
    have hc : c ≠ '%' := hpre c (List.mem_cons_self c cs)
    have hcs : ∀ x ∈ cs, x ≠ '%' := fun x hx => hpre x (List.mem_cons_of_mem c hx)
    rw [List.cons_append, doPrintf, if_neg hc, ih hcs, Option.map_map]
    rfl

theorem doPrintf_verb_s (rest : List Char) (a : String) (as : List String) :
    doPrintf ('%' :: 's' :: rest) false (a :: as)
      = (doPrintf rest false as).map (a.data ++ ·) := by
  rfl

theorem doPrintf_tail (suf : List Char) (hsuf : ∀ c ∈ suf, c ≠ '%') :
    doPrintf suf false [] = some suf := by
  have h := doPrintf_text suf hsuf [] []
  simpa [doPrintf, extraArgs] using h

set_option maxRecDepth 100000 in
theorem htmlTemplate_split :
    htmlTemplate.data = shellHead.data ++ '%' :: 's' :: shellTail.data := by
  have h1 : (htmlTemplate.data.dropWhile fun c => c ≠ '%')
      = '%' :: 's' :: (htmlTemplate.data.dropWhile fun c => c ≠ '%').drop 2 := by
    decide!
  have h2 := List.takeWhile_append_dropWhile (fun c => decide (c ≠ '%')) htmlTemplate.data
  rw [h1] at h2
  unfold shellHead shellTail
  exact h2.symm

theorem shellHead_text : ∀ c ∈ shellHead.data, c ≠ '%' := by
  intro c hc
  unfold shellHead at hc
  have := List.mem_takeWhile_imp hc
  simpa using this

theorem shellTail_text : ∀ c ∈ shellTail.data, c ≠ '%' := by
  unfold shellTail
  decide!

theorem resultPage_split :
    resultPage.data
      = resultHead.data ++ '%' :: 's' :: (resultMid.data ++ '%' :: 's' :: resultTail.data) := by
  decide!

theorem Sprintf_htmlTemplate (f : String) :
    Sprintf htmlTemplate [f] = some (shellHead ++ f ++ shellTail) := by
  unfold Sprintf
  rw [htmlTemplate_split, doPrintf_text _ shellHead_text, doPrintf_verb_s,
    doPrintf_tail _ shellTail_text]
  simp only [Option.map_some', Option.some.injEq]
  apply String.ext
  simp only [String.data_append, List.append_assoc]

theorem Sprintf_resultPage (c m : String) :
    Sprintf resultPage [c, m]
      = some (resultHead ++ c ++ resultMid ++ m ++ resultTail) := by
  unfold Sprintf
  rw [resultPage_split, doPrintf_text _ (by decide), doPrintf_verb_s,
    doPrintf_text _ (by decide), doPrintf_verb_s, doPrintf_tail _ (by decide)]
  simp only [Option.map_some', Option.some.injEq]
  apply String.ext
  simp only [String.data_append, List.append_assoc]

theorem renderResult_eq (c m : String) : renderResult c m = some (resultHtml c m) := by
  unfold renderResult
  rw [Sprintf_resultPage]
  simp only [Sprintf_htmlTemplate]
  rfl

theorem htmlResponse_eq (html : String) :
    htmlResponse html =
      { header := [("Content-Type", "text/html; charset=utf-8")], setCookies := [],
        wroteHeader := true, status := 200, body := html } := by
  simp [htmlResponse, Fprint, ResponseWriter.Set, ResponseWriter.WriteHeader]

theorem Error_eq (msg : String) (code : Nat) :
    Error {} msg code =
      { header := [("Content-Type", "text/plain; charset=utf-8"),
          ("X-Content-Type-Options", "nosniff")],
        setCookies := [], wroteHeader := true, status := code, body := msg ++ "\n" } := by
  simp [Error, Fprint, ResponseWriter.Set, ResponseWriter.WriteHeader]

theorem Redirect_post (r : Request) (hm : r.Method = "POST") (url : String) (code : Nat) :
    Redirect {} r url code =
      { header := [("Location", url)], setCookies := [], wroteHeader := true,
        status := code, body := "" } := by
  simp [Redirect, hm, ResponseWriter.Set, ResponseWriter.WriteHeader]

theorem guessHandler_method (r : Request) (hm : r.Method ≠ "POST") :
    guessHandler r = some (Error {} "方法不允许" 405) := by
  unfold guessHandler
  simp only [MethodPost, StatusMethodNotAllowed]
  rw [if_pos hm]

theorem guessHandler_form (r : Request) (hm : r.Method = "POST")
    (hf : r.parseFormFails = true) :
    guessHandler r = some (Error {} "无法解析表单数据" 400) := by
  unfold guessHandler
  simp [MethodPost, StatusBadRequest, hm, hf]

theorem guessHandler_number (r : Request) (hm : r.Method = "POST")
    (hf : r.parseFormFails = false) (hn : Atoi (r.FormValue "number") = none) :
    guessHandler r = some (Error {} "请输入有效的数字" 400) := by
  unfold guessHandler
  simp [MethodPost, StatusBadRequest, hm, hf, hn]

theorem guessHandler_no_cookie (r : Request) (hm : r.Method = "POST")
    (hf : r.parseFormFails = false) (g : Int) (hn : Atoi (r.FormValue "number") = some g)
    (hc : r.Cookie "target" = none) :
    guessHandler r = some (Redirect {} r "/" 302) := by
  unfold guessHandler
  simp [MethodPost, StatusFound, hm, hf, hn, hc]

theorem guessHandler_bad_cookie (r : Request) (hm : r.Method = "POST")
    (hf : r.parseFormFails = false) (g : Int) (hn : Atoi (r.FormValue "number") = some g)
    (ck : Cookie) (hc : r.Cookie "target" = some ck) (hv : Atoi ck.Value = none) :
    guessHandler r = some (Redirect {} r "/" 302) := by
  unfold guessHandler
  simp [MethodPost, StatusFound, hm, hf, hn, hc, hv]

theorem guessHandler_pass (r : Request) (hm : r.Method = "POST")
    (hf : r.parseFormFails = false) (g : Int) (hn : Atoi (r.FormValue "number") = some g)
    (ck : Cookie) (hc : r.Cookie "target" = some ck) (t : Int) (hv : Atoi ck.Value = some t) :
    guessHandler r = some (htmlResponse
      (if g > t then resultHtml "error" "太大了！"
       else if g < t then resultHtml "error" "太小了！"
       else resultHtml "success" "恭喜猜对！")) := by
  unfold guessHandler
  simp only [MethodPost, hm, hf, hn, hc, hv, ne_eq, not_true_eq_false, if_false,
    Sprintf_resultPage, Sprintf_htmlTemplate, Bool.false_eq_true]
  by_cases h1 : g > t
  · simp only [h1, if_true]; rfl
  · by_cases h2 : g < t
    · simp only [h1, h2, if_true, if_false]; rfl
    · simp only [h1, h2, if_false]; rfl

theorem sandwich_cancel (A B M T S c m c1 m1 : List Char)
    (h : A ++ (B ++ (c ++ (M ++ (m ++ (T ++ S))))) = A ++ (B ++ (c1 ++ (M ++ (m1 ++ (T ++ S)))))) :
    c ++ (M ++ m) = c1 ++ (M ++ m1) := by
  have h1 : c ++ (M ++ (m ++ (T ++ S))) = c1 ++ (M ++ (m1 ++ (T ++ S))) :=
    List.append_cancel_left (List.append_cancel_left h)
  rw [← List.append_assoc M, ← List.append_assoc c, ← List.append_assoc M,
    ← List.append_assoc c1] at h1
  exact List.append_cancel_right h1

theorem resultHtml_cancel (c m c1 m1 : String) (h : resultHtml c m = resultHtml c1 m1) :
    c.data ++ (resultMid.data ++ m.data) = c1.data ++ (resultMid.data ++ m1.data) := by
  have hd := congrArg String.data h
  simp only [resultHtml, String.data_append, List.append_assoc] at hd
  exact sandwich_cancel shellHead.data resultHead.data resultMid.data resultTail.data
    shellTail.data c.data m.data c1.data m1.data hd

theorem resultHtml_high_ne_low : resultHtml "error" "太大了！" ≠ resultHtml "error" "太小了！" :=
  fun h => absurd (resultHtml_cancel _ _ _ _ h) (by decide)

theorem resultHtml_high_ne_correct :
    resultHtml "error" "太大了！" ≠ resultHtml "success" "恭喜猜对！" :=
  fun h => absurd (resultHtml_cancel _ _ _ _ h) (by decide)

theorem resultHtml_low_ne_correct :
    resultHtml "error" "太小了！" ≠ resultHtml "success" "恭喜猜对！" :=
  fun h => absurd (resultHtml_cancel _ _ _ _ h) (by decide)

/-- The three verdict pages, told apart by the order of guess and secret. -/
theorem verdict_iff (g t : Int) :
    let page := if g > t then resultHtml "error" "太大了！"
      else if g < t then resultHtml "error" "太小了！"
      else resultHtml "success" "恭喜猜对！"
    (page = resultHtml "error" "太大了！" ↔ g > t) ∧
    (page = resultHtml "error" "太小了！" ↔ g < t) ∧
    (page = resultHtml "success" "恭喜猜对！" ↔ g = t) := by
  intro page
  have a := resultHtml_high_ne_low
  have b := resultHtml_high_ne_correct
  have c := resultHtml_low_ne_correct
  rcases lt_trichotomy g t with h | h | h
  · have h1 : ¬ g > t := by omega
    have h3 : g ≠ t := by omega
    have hp : page = resultHtml "error" "太小了！" := by simp only [page, h1, h, if_true, if_false]
    rw [hp]
    exact ⟨⟨fun e => absurd e.symm a, fun e => absurd e h1⟩, ⟨fun _ => h, fun _ => rfl⟩,
      ⟨fun e => absurd e c, fun e => absurd e h3⟩⟩
  · have h1 : ¬ g > t := by omega
    have h2 : ¬ g < t := by omega
    have hp : page = resultHtml "success" "恭喜猜对！" := by
      simp only [page, h1, h2, if_false]
    rw [hp]
    exact ⟨⟨fun e => absurd e.symm b, fun e => absurd e h1⟩,
      ⟨fun e => absurd e.symm c, fun e => absurd e h2⟩, ⟨fun _ => h, fun _ => rfl⟩⟩
  · have h2 : ¬ g < t := by omega
    have h3 : g ≠ t := by omega
    have hp : page = resultHtml "error" "太大了！" := by simp only [page, h, if_true]
    rw [hp]
    exact ⟨⟨fun _ => h, fun _ => rfl⟩, ⟨fun e => absurd e a, fun e => absurd e h2⟩,
      ⟨fun e => absurd e b, fun e => absurd e h3⟩⟩

theorem homeHandler_eq (draw : Nat) (r : Request) :
    homeHandler draw r = some
      { header := [("Content-Type", "text/html; charset=utf-8")],
        setCookies := [{ Name := "target", Value := Itoa ((draw : Int) + 1), Path := "/",
                         MaxAge := 3600, HttpOnly := true }],
        wroteHeader := true, status := 200, body := shellHead ++ homePage ++ shellTail } := by
  have hv : isCookieNameValid "target" = true := by decide
  unfold homeHandler
  simp only [Sprintf_htmlTemplate]
  simp [SetCookie, hv, Fprint, ResponseWriter.Set, ResponseWriter.WriteHeader]

theorem shellHead_first : shellHead.data = '<' :: shellHead.data.tail := by
  unfold shellHead
  decide!

theorem resultHtml_first (c m : String) : ∃ t, (resultHtml c m).data = '<' :: t := by
  refine ⟨shellHead.data.tail ++ ((resultHead ++ c ++ resultMid ++ m ++ resultTail).data
    ++ shellTail.data), ?_⟩
  simp only [resultHtml, String.data_append]
  rw [shellHead_first]
  simp

/-- The body of the bad-number error is not a rendered result page. -/
theorem numberError_ne_page (c m : String) :
    some (("请输入有效的数字" : String) ++ "\n") ≠ renderResult c m := by
  intro h
  rw [renderResult_eq, Option.some.injEq] at h
  obtain ⟨t, ht⟩ := resultHtml_first c m
  have hd := congrArg String.data h
  rw [ht] at hd
  revert hd
  simp [String.data_append]

/-- Every request gets a response from `guessHandler`, of one of three shapes. -/
theorem guessHandler_shape (r : Request) :
    (∃ msg code, (code = 405 ∨ code = 400) ∧ guessHandler r = some (Error {} msg code)) ∨
    (r.Method = "POST" ∧ guessHandler r = some (Redirect {} r "/" 302)) ∨
    (∃ page, guessHandler r = some (htmlResponse page)) := by
  by_cases hm : r.Method = "POST"
  · cases hf : r.parseFormFails with
    | true => exact Or.inl ⟨_, 400, Or.inr rfl, guessHandler_form r hm hf⟩
    | false =>
      cases hn : Atoi (r.FormValue "number") with
      | none => exact Or.inl ⟨_, 400, Or.inr rfl, guessHandler_number r hm hf hn⟩
      | some g =>
        cases hc : r.Cookie "target" with
        | none => exact Or.inr (Or.inl ⟨hm, guessHandler_no_cookie r hm hf g hn hc⟩)
        | some ck =>
          cases hv : Atoi ck.Value with
          | none => exact Or.inr (Or.inl ⟨hm, guessHandler_bad_cookie r hm hf g hn ck hc hv⟩)
          | some t => exact Or.inr (Or.inr ⟨_, guessHandler_pass r hm hf g hn ck hc t hv⟩)
  · exact Or.inl ⟨_, 405, Or.inl rfl, guessHandler_method r hm⟩

/-! ## The properties of the handlers -/

/-- C1: for a guess `g` and a secret `s`, both in [1,100], a POST whose form
parses, whose field `number` is the decimal string of `g` and whose cookie
`target` is the decimal string of `s` is answered with status 200, and the page
is the "too high" page (class `error`) exactly when `g > s`, the "too low" page
(class `error`) exactly when `g < s`, and the "correct" page (class `success`)
exactly when `g = s`. -/
theorem guess_feedback (r : Request) (g s : Int) (ck : Cookie)
    (hg : 1 ≤ g ∧ g ≤ 100) (hs : 1 ≤ s ∧ s ≤ 100)
    (hm : r.Method = "POST") (hf : r.parseFormFails = false)
    (hn : r.FormValue "number" = Itoa g)
    (hc : r.Cookie "target" = some ck) (hv : ck.Value = Itoa s) :
    ∃ w, guessHandler r = some w ∧ w.status = 200 ∧
      (some w.body = renderResult "error" "太大了！" ↔ g > s) ∧
      (some w.body = renderResult "error" "太小了！" ↔ g < s) ∧
      (some w.body = renderResult "success" "恭喜猜对！" ↔ g = s) := by
  have hn1 : Atoi (r.FormValue "number") = some g := by
    rw [hn]; exact Atoi_Itoa g (by omega) (by omega)
  have hv1 : Atoi ck.Value = some s := by
    rw [hv]; exact Atoi_Itoa s (by omega) (by omega)
  refine ⟨_, guessHandler_pass r hm hf g hn1 ck hc s hv1, ?_, ?_⟩
  · rw [htmlResponse_eq]
  · rw [htmlResponse_eq]
    simp only [renderResult_eq, Option.some.injEq]
    exact verdict_iff g s

/-- C1, on the two examples of the specification: secret 42 and guess 50 give
the "too high" page with status 200; secret 42 and guess 42 give the "correct"
page with status 200. -/
theorem guess_feedback_witness :
    (∃ w, guessHandler (postGuess "50" [sentCookie "target" "42"]) = some w ∧
      w.status = 200 ∧ some w.body = renderResult "error" "太大了！") ∧
    (∃ w, guessHandler (postGuess "42" [sentCookie "target" "42"]) = some w ∧
      w.status = 200 ∧ some w.body = renderResult "success" "恭喜猜对！") := by
  constructor
  · obtain ⟨w, h1, h2, h3, _, _⟩ :=
      guess_feedback (postGuess "50" [sentCookie "target" "42"]) 50 42
        (sentCookie "target" "42") (by decide) (by decide) rfl rfl (by decide) (by decide)
        (by decide)
    exact ⟨w, h1, h2, h3.mpr (by decide)⟩
  · obtain ⟨w, h1, h2, _, _, h5⟩ :=
      guess_feedback (postGuess "42" [sentCookie "target" "42"]) 42 42
        (sentCookie "target" "42") (by decide) (by decide) rfl rfl (by decide) (by decide)
        (by decide)
    exact ⟨w, h1, h2, h5.mpr rfl⟩

/-- C2: for every request and every draw `r` of `rand.Intn(100)`, so `r < 100`,
`homeHandler` sets a cookie named `target` whose value is `Itoa (r+1)`, and
`Atoi` of that value succeeds with an integer between 1 and 100. -/
theorem home_cookie_in_range (draw : Nat) (hd : draw < 100) (r : Request) :
    ∃ w c, homeHandler draw r = some w ∧ c ∈ w.setCookies ∧ c.Name = "target" ∧
      c.Value = Itoa ((draw : Int) + 1) ∧
      ∃ n, Atoi c.Value = some n ∧ 1 ≤ n ∧ n ≤ 100 := by
  refine ⟨_, _, homeHandler_eq draw r, List.mem_singleton.mpr rfl, rfl, rfl,
    (draw : Int) + 1, ?_, by omega, by omega⟩
  exact Atoi_Itoa _ (by omega) (by omega)

/-- C2 at the draw 41: the cookie `target=42` is set and reads back as 42. -/
theorem home_cookie_in_range_witness :
    (41 : Nat) < 100 ∧
    ∃ w c, homeHandler 41 getRequest = some w ∧ c ∈ w.setCookies ∧ c.Name = "target" ∧
      c.Value = Itoa ((41 : Nat) + 1) ∧
      ∃ n, Atoi c.Value = some n ∧ 1 ≤ n ∧ n ≤ 100 :=
  ⟨by decide, home_cookie_in_range 41 (by decide) getRequest⟩

/-- C3, as stated, fails: a POST without a `target` cookie whose field `number`
is `abc` is answered with status 400 and no `Location` header, not with a
redirect. -/
theorem no_cookie_bad_number_is_400 :
    (postGuess "abc" []).Method = "POST" ∧ (postGuess "abc" []).Cookie "target" = none ∧
    ∃ w, guessHandler (postGuess "abc" []) = some w ∧ w.status = 400 ∧ w.status ≠ 302 ∧
      w.header.lookup "Location" = none := by
  refine ⟨rfl, rfl, _, guessHandler_number (postGuess "abc" []) rfl rfl (by decide), ?_⟩
  rw [Error_eq]
  exact ⟨rfl, by decide, rfl⟩

/-- C3, amended: every POST whose form parses and whose field `number` is
accepted by `Atoi`, and that carries no `target` cookie, is answered with a 302
redirect to `/`. -/
theorem no_cookie_redirects (r : Request) (g : Int)
    (hm : r.Method = "POST") (hf : r.parseFormFails = false)
    (hn : Atoi (r.FormValue "number") = some g) (hc : r.Cookie "target" = none) :
    ∃ w, guessHandler r = some w ∧ w.status = 302 ∧
      w.header.lookup "Location" = some "/" := by
  refine ⟨_, guessHandler_no_cookie r hm hf g hn hc, ?_⟩
  rw [Redirect_post r hm]
  exact ⟨rfl, rfl⟩

/-- C3, amended, on a POST of the guess 50 without any cookie. -/
theorem no_cookie_redirects_witness :
    ∃ w, guessHandler (postGuess "50" []) = some w ∧ w.status = 302 ∧
      w.header.lookup "Location" = some "/" :=
  no_cookie_redirects (postGuess "50" []) 50 rfl rfl (by decide) rfl

/-- C4: every POST whose form parses and whose field `number` is rejected by
`Atoi` is answered with status 400, whatever the `target` cookie is; the body is
the error text, not a result page, and there is no redirect and no cookie. -/
theorem bad_number_is_400 (r : Request)
    (hm : r.Method = "POST") (hf : r.parseFormFails = false)
    (hn : Atoi (r.FormValue "number") = none) :
    ∃ w, guessHandler r = some w ∧ w.status = 400 ∧ w.body = "请输入有效的数字\n" ∧
      w.header.lookup "Location" = none ∧ w.setCookies = [] ∧
      ∀ c m, some w.body ≠ renderResult c m := by
  refine ⟨_, guessHandler_number r hm hf hn, ?_⟩
  rw [Error_eq]
  exact ⟨rfl, by decide, rfl, rfl, numberError_ne_page⟩

/-- C4 on the three examples: `abc` without a cookie, an absent field (read as
the empty string) with a non-integer cookie, and `4.5` with a valid secret. -/
theorem bad_number_is_400_witness :
    (∃ w, guessHandler (postGuess "abc" []) = some w ∧ w.status = 400) ∧
    (∃ w, guessHandler
        { Method := "POST", parseFormFails := false, Form := [],
          Cookies := [sentCookie "target" "xyz"] } = some w ∧ w.status = 400) ∧
    (∃ w, guessHandler (postGuess "4.5" [sentCookie "target" "42"]) = some w ∧
      w.status = 400) := by
  refine ⟨?_, ?_, ?_⟩
  · obtain ⟨w, h1, h2, _⟩ := bad_number_is_400 (postGuess "abc" []) rfl rfl (by decide)
    exact ⟨w, h1, h2⟩
  · obtain ⟨w, h1, h2, _⟩ := bad_number_is_400
      { Method := "POST", parseFormFails := false, Form := [],
        Cookies := [sentCookie "target" "xyz"] } rfl rfl (by decide)
    exact ⟨w, h1, h2⟩
  · obtain ⟨w, h1, h2, _⟩ := bad_number_is_400 (postGuess "4.5" [sentCookie "target" "42"])
      rfl rfl (by decide)
    exact ⟨w, h1, h2⟩

/-- C5: every request whose method is not POST is answered with status 405,
whatever its form, its field `number` and its cookies are. -/
theorem wrong_method_is_405 (r : Request) (hm : r.Method ≠ "POST") :
    ∃ w, guessHandler r = some w ∧ w.status = 405 ∧ w.body = "方法不允许\n" := by
  refine ⟨_, guessHandler_method r hm, ?_⟩
  rw [Error_eq]
  exact ⟨rfl, by decide⟩

/-- C5 on a GET and on a PUT that carry a valid guess and a valid secret. -/
theorem wrong_method_is_405_witness :
    (∃ w, guessHandler
        { Method := "GET", parseFormFails := false, Form := [("number", ["42"])],
          Cookies := [sentCookie "target" "42"] } = some w ∧ w.status = 405) ∧
    (∃ w, guessHandler
        { Method := "PUT", parseFormFails := true, Form := [],
          Cookies := [] } = some w ∧ w.status = 405) := by
  constructor
  · obtain ⟨w, h1, h2, _⟩ := wrong_method_is_405
      { Method := "GET", parseFormFails := false, Form := [("number", ["42"])],
        Cookies := [sentCookie "target" "42"] } (by decide)
    exact ⟨w, h1, h2⟩
  · obtain ⟨w, h1, h2, _⟩ := wrong_method_is_405
      { Method := "PUT", parseFormFails := true, Form := [], Cookies := [] } (by decide)
    exact ⟨w, h1, h2⟩

/-- C6: `guessHandler` applies its five checks in the order method, form,
number, cookie present, cookie value; the first check that fails decides the
response (405, 400, 400, redirect to `/`, redirect to `/`), and the response has
status 200, with a result page as body, exactly when all five checks pass. -/
theorem checks_in_order (r : Request) :
    (methodOk r = false → answers r 405) ∧
    (methodOk r = true → formOk r = false → answers r 400) ∧
    (methodOk r = true → formOk r = true → numberOk r = false → answers r 400) ∧
    (methodOk r = true → formOk r = true → numberOk r = true → cookiePresent r = false →
      redirectsHome r) ∧
    (methodOk r = true → formOk r = true → numberOk r = true → cookiePresent r = true →
      cookieOk r = false → redirectsHome r) ∧
    (answers r 200 ↔
      (methodOk r = true ∧ formOk r = true ∧ numberOk r = true ∧ cookiePresent r = true ∧
        cookieOk r = true)) ∧
    (answers r 200 → ∃ w c m, guessHandler r = some w ∧ some w.body = renderResult c m) := by
  by_cases hm : r.Method = "POST"
  · cases hf : r.parseFormFails with
    | true =>
      have hg := guessHandler_form r hm hf
      rw [Error_eq] at hg
      simp [methodOk, formOk, answers, redirectsHome, hm, hf, hg]
    | false =>
      cases hn : Atoi (r.FormValue "number") with
      | none =>
        have hg := guessHandler_number r hm hf hn
        rw [Error_eq] at hg
        simp [methodOk, formOk, numberOk, answers, redirectsHome, hm, hf, hn, hg]
      | some g =>
        cases hc : r.Cookie "target" with
        | none =>
          have hg := guessHandler_no_cookie r hm hf g hn hc
          rw [Redirect_post r hm] at hg
          simp [methodOk, formOk, numberOk, cookiePresent, cookieOk, answers, redirectsHome,
            hm, hf, hn, hc, hg]
        | some ck =>
          cases hv : Atoi ck.Value with
          | none =>
            have hg := guessHandler_bad_cookie r hm hf g hn ck hc hv
            rw [Redirect_post r hm] at hg
            simp [methodOk, formOk, numberOk, cookiePresent, cookieOk, answers, redirectsHome,
              hm, hf, hn, hc, hv, hg]
          | some t =>
            have hg := guessHandler_pass r hm hf g hn ck hc t hv
            rw [htmlResponse_eq] at hg
            simp only [methodOk, formOk, numberOk, cookiePresent, cookieOk, answers,
              redirectsHome, hm, hf, hn, hc, hv, hg, renderResult_eq]
            simp only [Option.some.injEq, exists_eq_left', decide_True, Bool.not_false,
              Option.isSome_some, and_self, iff_true, forall_true_left, true_implies,
              Bool.true_eq_false, false_implies, true_and]
            by_cases h1 : g > t
            · exact ⟨_, "error", "太大了！", rfl, by simp [h1]⟩
            · by_cases h2 : g < t
              · exact ⟨_, "error", "太小了！", rfl, by simp [h1, h2]⟩
              · exact ⟨_, "success", "恭喜猜对！", rfl, by simp [h1, h2]⟩
  · have hg := guessHandler_method r hm
    rw [Error_eq] at hg
    simp [methodOk, answers, redirectsHome, hm, hg]

/-- C6 on a POST with the valid number 50 and the present but non-integer
cookie `target=abc`: it is redirected to `/`. -/
theorem checks_in_order_witness :
    redirectsHome (postGuess "50" [sentCookie "target" "abc"]) :=
  (checks_in_order (postGuess "50" [sentCookie "target" "abc"])).2.2.2.2.1
    (by decide) (by decide) (by decide) (by decide) (by decide)

/-- C7: for every request, the response of `guessHandler` sets no cookie; the
cookies held by the client are therefore the same after the guess as before, and
the same request sent again with those cookies gets the same response. -/
theorem guess_sets_no_cookie (r : Request) :
    ∃ w, guessHandler r = some w ∧ w.setCookies = [] ∧
      (∀ jar, clientStep jar w = jar) ∧
      guessHandler { r with Cookies := clientStep r.Cookies w } = some w := by
  have key : ∃ w, guessHandler r = some w ∧ w.setCookies = [] := by
    rcases guessHandler_shape r with ⟨msg, code, _, h⟩ | ⟨hm, h⟩ | ⟨page, h⟩
    · exact ⟨_, h, by rw [Error_eq]⟩
    · exact ⟨_, h, by rw [Redirect_post r hm]⟩
    · exact ⟨_, h, by rw [htmlResponse_eq]⟩
  obtain ⟨w, hw, hs⟩ := key
  have hj : ∀ jar, clientStep jar w = jar := by
    intro jar
    simp [clientStep, hs]
  refine ⟨w, hw, hs, hj, ?_⟩
  rw [hj]
  exact hw

/-- C8: `homeHandler` always succeeds, and its response depends on the draw
alone: status 200, content type `text/html; charset=utf-8`, the page shell with
the home fragment as body, and exactly one cookie, `target = Itoa (r+1)` with
path `/`, max-age 3600 and HttpOnly; any other request gets the same response. -/
theorem home_response (draw : Nat) (hd : draw < 100) (r : Request) :
    ∃ w, homeHandler draw r = some w ∧ w.status = 200 ∧
      w.header = [("Content-Type", "text/html; charset=utf-8")] ∧
      some w.body = Sprintf htmlTemplate [homePage] ∧
      w.body = shellHead ++ homePage ++ shellTail ∧
      w.setCookies = [{ Name := "target", Value := Itoa ((draw : Int) + 1), Path := "/",
                        MaxAge := 3600, HttpOnly := true }] ∧
      ∀ r1, homeHandler draw r1 = some w := by
  refine ⟨_, homeHandler_eq draw r, rfl, rfl, ?_, rfl, rfl, fun r1 => homeHandler_eq draw r1⟩
  rw [Sprintf_htmlTemplate]

/-- C8 at the draw 41, for a GET without cookies and for a POST that carries
an older `target` cookie: both get the same response, which sets `target=42`. -/
theorem home_response_witness :
    ∃ w, homeHandler 41 getRequest = some w ∧
      homeHandler 41 (postGuess "7" [sentCookie "target" "99"]) = some w ∧
      w.status = 200 ∧
      w.setCookies = [{ Name := "target", Value := "42", Path := "/",
                        MaxAge := 3600, HttpOnly := true }] := by
  obtain ⟨w, h1, h2, _, _, _, h6, h7⟩ := home_response 41 (by decide) getRequest
  exact ⟨w, h1, h7 _, h2, h6⟩

/-- C9: rendering embeds the fragment verbatim.  The page shell is
`shellHead ++ "%s" ++ shellTail` with no other `%`, and for every fragment `f`
`Sprintf htmlTemplate [f]` is `shellHead ++ f ++ shellTail`; the result fragment
is `resultPage` with the class and the message substituted in that order, so
the rendered result page contains `<div class="message c">m</div>`. -/
theorem page_rendering :
    htmlTemplate = shellHead ++ "%s" ++ shellTail ∧
    (∀ c ∈ shellHead.data, c ≠ '%') ∧ (∀ c ∈ shellTail.data, c ≠ '%') ∧
    (∀ f, Sprintf htmlTemplate [f] = some (shellHead ++ f ++ shellTail)) ∧
    resultPage = resultHead ++ "%s" ++ resultMid ++ "%s" ++ resultTail ∧
    (∀ c m, Sprintf resultPage [c, m]
      = some (resultHead ++ c ++ resultMid ++ m ++ resultTail)) ∧
    (∀ c m, ∃ pre post, renderResult c m
      = some (pre ++ "<div class=\"message " ++ c ++ "\">" ++ m ++ "</div>" ++ post)) := by
  refine ⟨?_, shellHead_text, shellTail_text, Sprintf_htmlTemplate, by decide,
    Sprintf_resultPage, ?_⟩
  · apply String.ext
    rw [htmlTemplate_split]
    simp [String.data_append]
  · intro c m
    refine ⟨shellHead ++ "\n        ", "\n        <form method=\"GET\" action=\"/\">\n            <button type=\"submit\">再玩一次</button>\n        </form>\n" ++ shellTail, ?_⟩
    rw [renderResult_eq, Option.some.injEq]
    apply String.ext
    simp only [resultHtml, resultHead, resultMid, resultTail, String.data_append,
      List.append_assoc]
    rfl

/-- C10, as stated, fails for a guess outside the range of `int`: with the
cookie `target=42` issued at the draw 41, the guess 9223372036854775808 is
greater than the secret, yet the answer is status 400 and not the "too high"
page. -/
theorem huge_guess_is_400 :
    ∃ w0 c0 w, homeHandler 41 getRequest = some w0 ∧ w0.setCookies = [c0] ∧
      c0.Name = "target" ∧ c0.Value = Itoa (41 + 1) ∧
      guessHandler (postGuess (Itoa 9223372036854775808) [sentCookie c0.Name c0.Value])
        = some w ∧
      w.status = 400 ∧ (9223372036854775808 : Int) > 41 + 1 ∧
      some w.body ≠ renderResult "error" "太大了！" := by
  refine ⟨_, _, _, homeHandler_eq 41 getRequest, rfl, rfl, rfl,
    guessHandler_number (postGuess (Itoa 9223372036854775808) [sentCookie "target" "42"])
      rfl rfl (by decide), ?_⟩
  rw [Error_eq]
  exact ⟨rfl, by decide, numberError_ne_page _ _⟩

/-- C10, amended: the guess `g` is an integer in the range of `int`
(`-2^63 ≤ g < 2^63`).  For a draw `r < 100`, when the cookie issued by
`homeHandler` comes back unchanged in a POST whose form parses and whose field
`number` is the decimal string of `g`, the answer has status 200 and is the
"correct" page exactly when `g = r+1`, the "too high" page exactly when
`g > r+1`, and the "too low" page exactly when `g < r+1`; no request that
carries the issued cookie is redirected; and exactly one guess in [1,100] is
answered "correct". -/
theorem issued_cookie_round_trip (draw : Nat) (hd : draw < 100) (r0 : Request)
    (w0 : ResponseWriter) (h0 : homeHandler draw r0 = some w0)
    (c0 : Cookie) (hc0 : c0 ∈ w0.setCookies) (hname : c0.Name = "target")
    (g : Int) (hlo : -(2 : Int) ^ 63 ≤ g) (hhi : g < (2 : Int) ^ 63)
    (r : Request) (ck : Cookie)
    (hm : r.Method = "POST") (hf : r.parseFormFails = false)
    (hn : r.FormValue "number" = Itoa g)
    (hc : r.Cookie "target" = some ck) (hv : ck.Value = c0.Value) :
    (∃ w, guessHandler r = some w ∧ w.status = 200 ∧
      (some w.body = renderResult "success" "恭喜猜对！" ↔ g = (draw : Int) + 1) ∧
      (some w.body = renderResult "error" "太大了！" ↔ g > (draw : Int) + 1) ∧
      (some w.body = renderResult "error" "太小了！" ↔ g < (draw : Int) + 1)) ∧
    (∀ r1 ck1, r1.Cookie "target" = some ck1 → ck1.Value = c0.Value →
      ∃ w1, guessHandler r1 = some w1 ∧ w1.status ≠ 302) ∧
    (∃! k : Int, 1 ≤ k ∧ k ≤ 100 ∧
      ∃ w, guessHandler (postGuess (Itoa k) [sentCookie c0.Name c0.Value]) = some w ∧
        some w.body = renderResult "success" "恭喜猜对！") := by
  have hw0 := homeHandler_eq draw r0
  rw [h0, Option.some.injEq] at hw0
  have hval : c0.Value = Itoa ((draw : Int) + 1) := by
    rw [hw0] at hc0
    simp only [List.mem_singleton] at hc0
    rw [hc0]
  have hsec : Atoi c0.Value = some ((draw : Int) + 1) := by
    rw [hval]; exact Atoi_Itoa _ (by omega) (by omega)
  have hpage : ∀ (q : Request) (k : Int) (cq : Cookie), q.Method = "POST" →
      q.parseFormFails = false → q.FormValue "number" = Itoa k →
      -(2 : Int) ^ 63 ≤ k → k < (2 : Int) ^ 63 →
      q.Cookie "target" = some cq → cq.Value = c0.Value →
      ∃ w, guessHandler q = some w ∧ w.status = 200 ∧
        (some w.body = renderResult "success" "恭喜猜对！" ↔ k = (draw : Int) + 1) ∧
        (some w.body = renderResult "error" "太大了！" ↔ k > (draw : Int) + 1) ∧
        (some w.body = renderResult "error" "太小了！" ↔ k < (draw : Int) + 1) := by
    intro q k cq qm qf qn klo khi qc qv
    have qn1 : Atoi (q.FormValue "number") = some k := by
      rw [qn]; exact Atoi_Itoa k klo khi
    have qv1 : Atoi cq.Value = some ((draw : Int) + 1) := by rw [qv]; exact hsec
    refine ⟨_, guessHandler_pass q qm qf k qn1 cq qc _ qv1, ?_, ?_⟩
    · rw [htmlResponse_eq]
    · rw [htmlResponse_eq]
      simp only [renderResult_eq, Option.some.injEq]
      obtain ⟨a, b, c⟩ := verdict_iff k ((draw : Int) + 1)
      exact ⟨c, a, b⟩
  refine ⟨hpage r g ck hm hf hn hlo hhi hc hv, ?_, ?_⟩
  · intro r1 ck1 h1 h2
    rcases guessHandler_shape r1 with ⟨msg, code, hcode, h⟩ | ⟨hm1, h⟩ | ⟨page, h⟩
    · refine ⟨_, h, ?_⟩
      rw [Error_eq]
      rcases hcode with e | e <;> simp [e]
    · exfalso
      have hpost : r1.Method = "POST" := hm1
      cases hf1 : r1.parseFormFails with
      | true =>
        have h3 := guessHandler_form r1 hpost hf1
        rw [h3, Error_eq, Redirect_post r1 hpost, Option.some.injEq] at h
        have := congrArg ResponseWriter.status h
        simp at this
      | false =>
        cases hn1 : Atoi (r1.FormValue "number") with
        | none =>
          have h3 := guessHandler_number r1 hpost hf1 hn1
          rw [h3, Error_eq, Redirect_post r1 hpost, Option.some.injEq] at h
          have := congrArg ResponseWriter.status h
          simp at this
        | some k =>
          have hv1 : Atoi ck1.Value = some ((draw : Int) + 1) := by rw [h2]; exact hsec
          have h3 := guessHandler_pass r1 hpost hf1 k hn1 ck1 h1 _ hv1
          rw [h3, htmlResponse_eq, Redirect_post r1 hpost, Option.some.injEq] at h
          have := congrArg ResponseWriter.status h
          simp at this
    · exact ⟨_, h, by rw [htmlResponse_eq]; simp⟩
  · have hq : ∀ k : Int, 1 ≤ k → k ≤ 100 →
        ((∃ w, guessHandler (postGuess (Itoa k) [sentCookie c0.Name c0.Value]) = some w ∧
          some w.body = renderResult "success" "恭喜猜对！") ↔ k = (draw : Int) + 1) := by
      intro k k1 k2
      have hck : (postGuess (Itoa k) [sentCookie c0.Name c0.Value]).Cookie "target"
          = some (sentCookie c0.Name c0.Value) := by
        simp [Request.Cookie, postGuess, sentCookie, hname]
      obtain ⟨w, e1, _, e3, _, _⟩ := hpage (postGuess (Itoa k) [sentCookie c0.Name c0.Value]) k
        (sentCookie c0.Name c0.Value) rfl rfl rfl (by omega) (by omega) hck rfl
      constructor
      · rintro ⟨w1, f1, f2⟩
        rw [e1, Option.some.injEq] at f1
        rw [← f1] at f2
        exact e3.mp f2
      · intro hk
        exact ⟨w, e1, e3.mpr hk⟩
    refine ⟨(draw : Int) + 1, ⟨by omega, by omega, (hq _ (by omega) (by omega)).mpr rfl⟩, ?_⟩
    rintro k ⟨k1, k2, k3⟩
    exact (hq k k1 k2).mp k3

/-- C10, amended, at the draw 41: the issued cookie `target=42` comes back with
the guess 42 and the answer is the "correct" page with status 200. -/
theorem issued_cookie_round_trip_witness :
    ∃ w, guessHandler (postGuess "42" [sentCookie "target" "42"]) = some w ∧
      w.status = 200 ∧ some w.body = renderResult "success" "恭喜猜对！" := by
  obtain ⟨⟨w, h1, h2, h3, _, _⟩, _, _⟩ :=
    issued_cookie_round_trip 41 (by decide) getRequest _ (homeHandler_eq 41 getRequest)
      { Name := "target", Value := "42", Path := "/", MaxAge := 3600, HttpOnly := true }
      (List.mem_singleton.mpr rfl) rfl 42 (by decide) (by decide)
      (postGuess "42" [sentCookie "target" "42"]) (sentCookie "target" "42")
      rfl rfl (by decide) (by decide) rfl
  exact ⟨w, h1, h2, h3.mpr rfl⟩

end WebGuess
